import Mathlib

/-!
Verification development for the opportunity detection and scoring engine of
the dex-app-telegram repository.  Python floats are modelled as exact numbers:
rationals (`ℚ`) where the code only adds, multiplies, divides and compares, and
real numbers (`ℝ`) for the momentum scorer, which applies `log` and `exp`.
Values that the code can set to `float('inf')` are modelled by the two-case
type `FloatV`; the momentum scorer's divergence input, which is additionally
probed with `nan`, by `VDiv`.
-/

attribute [local semireducible] Rat.add Rat.sub Rat.mul Rat.inv

/-- Model of a Python float that is either finite or positive infinity
(the only non-finite value the analyzer produces). -/
inductive FloatV where
  | fin (q : ℚ)
  | inf
deriving DecidableEq, Repr

/-- Python `<` on such values: `inf < x` is always false, `x < inf` is true
for finite `x`. -/
def FloatV.ltb : FloatV → FloatV → Bool
  | .fin a, .fin b => decide (a < b)
  | .fin _, .inf => true
  | .inf, _ => false

/-- Python `+` on such values: any sum involving infinity is infinity. -/
def FloatV.add : FloatV → FloatV → FloatV
  | .fin a, .fin b => .fin (a + b)
  | _, _ => .inf

/-- Whether the value is infinite (Python `math.isinf`). -/
def FloatV.isInf : FloatV → Bool
  | .inf => true
  | _ => false

/-- The `volume_divergence` input of `calculate_momentum_score`: a finite real,
or one of the non-finite floats `+inf`, `-inf`, `nan` (all of which fail
Python's `math.isfinite`). -/
inductive VDiv where
  | fin (x : ℝ)
  | posInf
  | negInf
  | nan

/-- Whether `math.isfinite` holds of the modelled float. -/
def VDiv.isFiniteVal : VDiv → Bool
  | .fin _ => true
  | _ => false

/-- Volume component of `calculate_momentum_score`
(src/momentum_indicator.py lines 80-85): non-finite or non-positive divergence
is treated as maximal (4.0); otherwise `log1p(min(vd, 50)) / log1p(50) * 4`,
with `log1p x = log (1 + x)`. -/
noncomputable def volume_component : VDiv → ℝ
  | .fin x => if x ≤ 0 then 4 else Real.log (1 + min x 50) / Real.log (1 + 50) * 4
  | _ => 4

/-- Persistence component of `calculate_momentum_score`
(src/momentum_indicator.py lines 87-89): clamp the count to `[0, 12]`, then
`(1 - exp (-count / 2)) * 3`. -/
noncomputable def persistence_component (persistence_count : ℤ) : ℝ :=
  let clamped : ℤ := max 0 (min persistence_count 12)
  (1 - Real.exp (-(clamped : ℝ) / 2)) * 3

/-- Consistency bonus of `calculate_momentum_score`
(src/momentum_indicator.py line 92): `min (vc / 4) (pc / 3) * 2`. -/
noncomputable def consistency_bonus (vc pc : ℝ) : ℝ := min (vc / 4) (pc / 3) * 2

/-- RSI alignment component of `calculate_momentum_score`
(src/momentum_indicator.py lines 94-104): clamp RSI to `[0, 100]`, normalise
to `alignment = (50 - rsi) / 50`, flip the sign for downward direction, apply
a `±0.15` dead-band, and scale by 2.  `copysign (|a| - band) a` is written as
a sign split (`alignment ≠ 0` holds in that branch). -/
noncomputable def rsi_component (rsi_value : ℝ) (direction_is_upward : Bool) : ℝ :=
  let rsi_clamped := max 0 (min rsi_value 100)
  let alignment0 := (50 - rsi_clamped) / 50
  let alignment := if direction_is_upward then alignment0 else -alignment0
  if |alignment| ≤ 3 / 20 then 0
  else (if alignment < 0 then -(|alignment| - 3 / 20) else |alignment| - 3 / 20) * 2

/-- Model of `calculate_momentum_score` (src/momentum_indicator.py lines 50-108),
returning the numeric score; the human-readable interpretation string (a pure
format of the score and direction) is elided.  The final score is
`1.3 + volume + persistence + consistency + rsi`, clamped to `[0, 10]`. -/
noncomputable def calculate_momentum_score (volume_divergence : VDiv)
    (persistence_count : ℤ) (rsi_value : ℝ) (dominant_dex_has_lower_price : Bool) : ℝ :=
  let vc := volume_component volume_divergence
  let pc := persistence_component persistence_count
  let cb := consistency_bonus vc pc
  let rc := rsi_component rsi_value dominant_dex_has_lower_price
  max 0 (min (13 / 10 + vc + pc + cb + rc) 10)

/-- One Wilder smoothing step of `calculate_rsi`
(src/momentum_indicator.py lines 32-45): update the average gain and loss with
the next (gain, loss) pair and recompute the RSI value. -/
def wilder_step (period : ℕ) (st : ℚ × ℚ × ℚ) (gl : ℚ × ℚ) : ℚ × ℚ × ℚ :=
  let avg_gain := (st.1 * ((period : ℚ) - 1) + gl.1) / (period : ℚ)
  let avg_loss := (st.2.1 * ((period : ℚ) - 1) + gl.2) / (period : ℚ)
  let rsi : ℚ :=
    if avg_loss = 0 ∧ avg_gain = 0 then 50
    else if avg_loss = 0 then 100
    else if avg_gain = 0 then 0
    else 100 - 100 / (1 + avg_gain / avg_loss)
  (avg_gain, avg_loss, rsi)

/-- Model of `calculate_rsi` (src/momentum_indicator.py lines 6-47).  A raised
`ValueError` is modelled as `Except.error`; the early `None` return as
`Except.ok none`.  The seed averages that are zero return immediately (the
source returns inside those branches before the smoothing loop). -/
def calculate_rsi (prices : List ℚ) (period : ℤ) : Except String (Option ℚ) :=
  if period ≤ 0 then .error "RSI period must be positive"
  else if (prices.length : ℤ) ≤ period then .ok none
  else
    let p : ℕ := period.toNat
    let changes := List.zipWith (fun prev cur => cur - prev) prices prices.tail
    let gains := changes.map (fun c => max c 0)
    let losses := changes.map (fun c => max (-c) 0)
    let avg_gain := (gains.take p).sum / (p : ℚ)
    let avg_loss := (losses.take p).sum / (p : ℚ)
    if avg_loss = 0 ∧ avg_gain = 0 then .ok (some 50)
    else if avg_loss = 0 then .ok (some 100)
    else if avg_gain = 0 then .ok (some 0)
    else
      let rsi0 := 100 - 100 / (1 + avg_gain / avg_loss)
      let final := ((gains.drop p).zip (losses.drop p)).foldl (wilder_step p)
        (avg_gain, avg_loss, rsi0)
      .ok (some final.2.2)

deriving instance DecidableEq for Except

/-- Analyzer configuration (src/config.py `AppConfig`), restricted to the
fields the detection engine reads. -/
structure AppConfig where
  dex_fee : ℚ
  slippage : ℚ
  min_bullish_profit : ℚ
  min_bearish_discrepancy : ℚ
  trade_volume : ℚ
  min_liquidity : ℚ
  min_volume : ℚ
  min_txns_h1 : ℤ
  min_profit : ℚ
deriving DecidableEq, Repr

/-- src/constants.py line 100. -/
def EARLY_MOMENTUM_MIN_LIQUIDITY : ℚ := 200000

/-- src/constants.py line 101. -/
def EARLY_MOMENTUM_MIN_VOLUME : ℚ := 300000

/-- src/constants.py line 102. -/
def EARLY_MOMENTUM_MIN_VOLUME_M5 : ℚ := 25000

/-- src/constants.py line 103. -/
def EARLY_MOMENTUM_MIN_TXNS_M5 : ℤ := 3

/-- src/constants.py line 104 (0.035). -/
def EARLY_MOMENTUM_VOLUME_RATIO_THRESHOLD : ℚ := 7 / 200

/-- Python `str.lower`, written directly on the character list (the records
this engine consumes are ASCII symbol/address strings). -/
def lowerString (s : String) : String := ⟨s.data.map Char.toLower⟩

/-- Lexicographic code-point order on strings, as Python compares them. -/
def charListLt : List Char → List Char → Bool
  | [], [] => false
  | [], _ :: _ => true
  | _ :: _, [] => false
  | a :: as, b :: bs =>
    if a.toNat < b.toNat then true
    else if b.toNat < a.toNat then false
    else charListLt as bs

/-- Non-strict string order used to sort pair-name keys. -/
def strLeb (a b : String) : Bool := decide (a = b) || charListLt a.data b.data

/-- Insert into a sorted list of keys. -/
def insertSorted (s : String) : List String → List String
  | [] => [s]
  | x :: xs => if strLeb s x then s :: x :: xs else x :: insertSorted s xs

/-- Sort pair-name keys lexicographically (Python `sorted`; the keys are
distinct after deduplication, so stability does not matter). -/
def sortKeys : List String → List String
  | [] => []
  | x :: xs => insertSorted x (sortKeys xs)

/-- A base/quote token object of a raw pair record: `{symbol, address}`. -/
structure TokenRef where
  symbol : String
  address : String
deriving DecidableEq, Repr

/-- One raw market-data pair record as consumed by
`OpportunityAnalyzer.find_opportunities` (src/analysis/analyzer.py).
`Option` models a missing key (or, for the numeric price fields, a value that
`float()` fails to parse — both cases make the analyzer skip the record).
The nested `liquidity.usd`, `volume.h24`, `volume.m5` and transaction-count
lookups carry defaults in the source (`.get(..., 0)`), applied below. -/
structure RawPair where
  chainId : Option String
  dexId : Option String
  baseToken : Option TokenRef
  quoteToken : Option TokenRef
  priceUsd : Option ℚ
  priceNative : Option ℚ
  liquidityUsd : Option ℚ
  volH24 : Option ℚ
  volM5 : Option ℚ
  txnsH1Buys : Option ℤ
  txnsH1Sells : Option ℤ
  txnsM5Buys : Option ℤ
  txnsM5Sells : Option ℤ
  priceChangeH1 : Option ℚ
deriving DecidableEq, Repr

/-- One entry of `prices_by_pair` (src/analysis/analyzer.py lines 93-103). -/
structure PriceEntry where
  dex : String
  price : ℚ
  liquidity : ℚ
  volume_24h : ℚ
  volume_m5 : ℚ
  txns_m5_total : ℤ
  base_token_address : String
  price_change_h1 : Option ℚ
  is_early_momentum : Bool
deriving DecidableEq, Repr

/-- `OpportunityAnalyzer._is_early_momentum_candidate`
(src/analysis/analyzer.py lines 216-233). -/
def is_early_momentum_candidate (liquidity volume_24h volume_m5 : ℚ)
    (txns_m5 : ℤ) : Bool :=
  if liquidity < EARLY_MOMENTUM_MIN_LIQUIDITY then false
  else if volume_24h < EARLY_MOMENTUM_MIN_VOLUME then false
  else if volume_m5 < EARLY_MOMENTUM_MIN_VOLUME_M5 then false
  else if txns_m5 < EARLY_MOMENTUM_MIN_TXNS_M5 then false
  else if volume_24h ≤ 0 then false
  else decide (EARLY_MOMENTUM_VOLUME_RATIO_THRESHOLD ≤ volume_m5 / volume_24h)

/-- The per-record filtering and quote-resolution stage of `find_opportunities`
(src/analysis/analyzer.py lines 41-103): returns the `(pair_name, entry)`
appended to `prices_by_pair`, or `none` when the record is skipped.  The
source's dead `elif not txns_ok: continue` branch (unreachable because the
`elif` requires `txns_ok`) is omitted. -/
def parsePair (config : AppConfig) (target_lower : String) (chain_name : String)
    (pair : RawPair) : Option (String × PriceEntry) :=
  if pair.chainId ≠ some chain_name then none
  else
    let liq_usd := pair.liquidityUsd.getD 0
    let vol_24h := pair.volH24.getD 0
    let vol_m5 := pair.volM5.getD 0
    let h1_total := pair.txnsH1Buys.getD 0 + pair.txnsH1Sells.getD 0
    let m5_total := pair.txnsM5Buys.getD 0 + pair.txnsM5Sells.getD 0
    let liquidity_ok := decide (config.min_liquidity ≤ liq_usd)
    let volume_ok := decide (config.min_volume ≤ vol_24h)
    let txns_ok := decide (config.min_txns_h1 = 0) || decide (config.min_txns_h1 ≤ h1_total)
    let standard_ok := liquidity_ok && volume_ok && txns_ok
    let is_early := if standard_ok then false
      else is_early_momentum_candidate liq_usd vol_24h vol_m5 m5_total
    if !standard_ok && !is_early then none
    else
      match pair.dexId, pair.baseToken, pair.quoteToken, pair.priceUsd, pair.priceNative with
      | some dexId, some baseTok, some quoteTok, some base_price_usd, some price_native =>
        let pair_name := baseTok.symbol ++ "/" ++ quoteTok.symbol
        if lowerString baseTok.symbol = target_lower then
          some (pair_name,
            ⟨dexId, base_price_usd, liq_usd, vol_24h, vol_m5, m5_total,
              baseTok.address, pair.priceChangeH1, is_early⟩)
        else if lowerString quoteTok.symbol = target_lower then
          if price_native = 0 then none
          else
            some (pair_name,
              ⟨dexId, base_price_usd / price_native, liq_usd, vol_24h, vol_m5, m5_total,
                quoteTok.address, pair.priceChangeH1, is_early⟩)
        else none
      | _, _, _, _, _ => none

/-- Grouping of surviving quotes by pair name, iterated in sorted key order
(src/analysis/analyzer.py line 105: `sorted(prices_by_pair.items())`).
Within a group the entries keep their insertion order. -/
def groupPrices (l : List (String × PriceEntry)) : List (String × List PriceEntry) :=
  let keys := (l.map Prod.fst).dedup
  (sortKeys keys).map fun k =>
    (k, (l.filter (fun e => decide (e.1 = k))).map Prod.snd)

/-- The ordered index pairs `(i, j)` with `i < j` of the double loop at
src/analysis/analyzer.py lines 108-109, realised directly on the entries. -/
def venuePairs : List PriceEntry → List (PriceEntry × PriceEntry)
  | [] => []
  | a :: rest => rest.map (fun b => (a, b)) ++ venuePairs rest

/-- src/analysis/models.py `ArbitrageOpportunity`.  The optional trailing
address fields (defaulted to `None` and never set by the analyzer) are
omitted.  `dominant_volume_ratio` can be `float('inf')` in the source and is
therefore a `FloatV`. -/
structure ArbitrageOpportunity where
  pair_name : String
  chain_name : String
  direction : String
  buy_dex : String
  buy_price : ℚ
  sell_dex : String
  sell_price : ℚ
  gross_diff_pct : ℚ
  effective_volume : ℚ
  gross_profit_usd : ℚ
  gas_cost_usd : ℚ
  dex_fee_cost : ℚ
  slippage_cost : ℚ
  net_profit_usd : ℚ
  gas_price_gwei : ℚ
  base_token_address : String
  buy_dex_volume_usd : ℚ
  sell_dex_volume_usd : ℚ
  dominant_is_buy_side : Bool
  dominant_volume_ratio : FloatV
  price_impact_pct : ℚ
  buy_price_change_h1 : Option ℚ
  sell_price_change_h1 : Option ℚ
  short_term_volume_ratio : ℚ
  short_term_txns_total : ℤ
  is_early_momentum : Bool
deriving DecidableEq, Repr

/-- `OpportunityAnalyzer._calculate_short_term_volume_ratio`
(src/analysis/analyzer.py lines 235-241). -/
def calculate_short_term_volume_ratio (buy_option sell_option : PriceEntry) : ℚ :=
  let vol_m5_total := buy_option.volume_m5 + sell_option.volume_m5
  let vol_h24_total := buy_option.volume_24h + sell_option.volume_24h
  if vol_h24_total ≤ 0 then 0 else min (vol_m5_total / vol_h24_total) 1

/-- Which side is dominant in a venue-pair evaluation
(src/analysis/analyzer.py lines 124-127): on a 24h-volume tie the
lower-priced side, otherwise the strictly higher-volume side. -/
def domIsA (dex_a dex_b : PriceEntry) : Bool :=
  if dex_a.volume_24h = dex_b.volume_24h then decide (dex_a.price < dex_b.price)
  else decide (dex_b.volume_24h < dex_a.volume_24h)

/-- The `lower_option` local of the venue loop (src/analysis/analyzer.py
line 122): the cheaper of the two entries. -/
def lower_option (dex_a dex_b : PriceEntry) : PriceEntry :=
  if dex_a.price < dex_b.price then dex_a else dex_b

/-- The `higher_option` local (src/analysis/analyzer.py line 123). -/
def higher_option (dex_a dex_b : PriceEntry) : PriceEntry :=
  if dex_a.price < dex_b.price then dex_b else dex_a

/-- The `dominant_option` local (src/analysis/analyzer.py lines 124-127). -/
def dominant_option (dex_a dex_b : PriceEntry) : PriceEntry :=
  if domIsA dex_a dex_b then dex_a else dex_b

/-- The `other_option` local (src/analysis/analyzer.py line 131): the
non-dominant entry. -/
def other_option (dex_a dex_b : PriceEntry) : PriceEntry :=
  if domIsA dex_a dex_b then dex_b else dex_a

/-- The `dominant_is_buy_side` local (src/analysis/analyzer.py line 129):
whether the dominant entry is the cheaper one (Python's
`dominant_option is lower_option` object identity, decided through the side
booleans — sound because past the price guards the two entries differ). -/
def dominant_is_buy_side (dex_a dex_b : PriceEntry) : Bool :=
  decide (domIsA dex_a dex_b = decide (dex_a.price < dex_b.price))

/-- The `direction` local (src/analysis/analyzer.py line 130). -/
def direction (dex_a dex_b : PriceEntry) : String :=
  if dominant_is_buy_side dex_a dex_b then "BULLISH" else "BEARISH"

/-- The `dominant_volume_ratio` local (src/analysis/analyzer.py lines
132-136): dominant volume over the other venue volume, `inf` when the other
volume is not positive (the `try`/`except` alternatives cannot occur in the
typed model: both fields are numbers and the zero case is guarded). -/
def dominant_volume_ratio (dex_a dex_b : PriceEntry) : FloatV :=
  if 0 < (other_option dex_a dex_b).volume_24h
  then .fin ((dominant_option dex_a dex_b).volume_24h / (other_option dex_a dex_b).volume_24h)
  else .inf

/-- The `profit_percentage` local (src/analysis/analyzer.py line 146). -/
def profit_percentage (dex_a dex_b : PriceEntry) : ℚ :=
  ((higher_option dex_a dex_b).price - (lower_option dex_a dex_b).price)
    / (lower_option dex_a dex_b).price * 100

/-- The `opportunity_is_early` local (src/analysis/analyzer.py line 153). -/
def opportunity_is_early (dex_a dex_b : PriceEntry) : Bool :=
  (lower_option dex_a dex_b).is_early_momentum
    || (higher_option dex_a dex_b).is_early_momentum

/-- The `effective_volume` local (src/analysis/analyzer.py lines 155-161):
capped at 0.5% of each leg's liquidity, and additionally at 0.2% of the
smaller liquidity for early-momentum opportunities. -/
def effective_volume (config : AppConfig) (dex_a dex_b : PriceEntry) : ℚ :=
  let ev0 := min config.trade_volume
    (min ((lower_option dex_a dex_b).liquidity * (1 / 200))
      ((higher_option dex_a dex_b).liquidity * (1 / 200)))
  if opportunity_is_early dex_a dex_b
  then min ev0 (min (lower_option dex_a dex_b).liquidity
    (higher_option dex_a dex_b).liquidity * (1 / 500))
  else ev0

/-- The `buy_price_impact_pct` local (src/analysis/analyzer.py line 166). -/
def buy_impact (config : AppConfig) (dex_a dex_b : PriceEntry) : FloatV :=
  if 0 < (lower_option dex_a dex_b).liquidity
  then .fin (effective_volume config dex_a dex_b / (lower_option dex_a dex_b).liquidity * 100)
  else .inf

/-- The `sell_price_impact_pct` local (src/analysis/analyzer.py line 167). -/
def sell_impact (config : AppConfig) (dex_a dex_b : PriceEntry) : FloatV :=
  if 0 < (higher_option dex_a dex_b).liquidity
  then .fin (effective_volume config dex_a dex_b / (higher_option dex_a dex_b).liquidity * 100)
  else .inf

/-- The `impact_threshold` local (src/analysis/analyzer.py line 169). -/
def impact_threshold (dex_a dex_b : PriceEntry) : ℚ :=
  if opportunity_is_early dex_a dex_b then 2 else 3 / 2

/-- The `gas_cost_usd` local (src/analysis/analyzer.py lines 174-177):
`gas_price_gwei * 1e-9 * gas_units * 2` native units at the native USD
price. -/
def gas_cost_usd_calc (native_price_usd gas_price_gwei gas_units : ℚ) : ℚ :=
  gas_price_gwei * (1 / 1000000000) * gas_units * 2 * native_price_usd

/-- The `gross_profit_usd` local (src/analysis/analyzer.py line 178). -/
def gross_profit_usd_calc (config : AppConfig) (dex_a dex_b : PriceEntry) : ℚ :=
  ((higher_option dex_a dex_b).price - (lower_option dex_a dex_b).price)
    / (lower_option dex_a dex_b).price * effective_volume config dex_a dex_b

/-- The `net_profit_usd` local (src/analysis/analyzer.py line 179): gross
profit minus gas, DEX fees (both legs), slippage and price-impact cost. -/
def net_profit_usd_calc (config : AppConfig)
    (native_price_usd gas_price_gwei gas_units : ℚ) (dex_a dex_b : PriceEntry)
    (price_impact_pct : ℚ) : ℚ :=
  gross_profit_usd_calc config dex_a dex_b
    - gas_cost_usd_calc native_price_usd gas_price_gwei gas_units
    - effective_volume config dex_a dex_b * 2 * (config.dex_fee / 100)
    - effective_volume config dex_a dex_b * (config.slippage / 100)
    - effective_volume config dex_a dex_b * (price_impact_pct / 100)

/-- One iteration of the venue-combination loop of `find_opportunities`
(src/analysis/analyzer.py lines 110-213): `none` models `continue`.  The
loop's local variables are modelled by the helper definitions above;
`GAS_UNITS_PER_SWAP[chain_name]` is passed in as `gas_units`. -/
def evalCombo (config : AppConfig) (pair_name chain_name : String)
    (native_price_usd gas_price_gwei gas_units : ℚ)
    (dex_a dex_b : PriceEntry) : Option ArbitrageOpportunity :=
  if dex_a.dex = dex_b.dex then none
  else if dex_a.price ≤ 0 ∨ dex_b.price ≤ 0 then none
  else if dex_a.price = dex_b.price then none
  else if (higher_option dex_a dex_b).price - (lower_option dex_a dex_b).price ≤ 0 then none
  else if direction dex_a dex_b = "BEARISH" ∧
    profit_percentage dex_a dex_b < config.min_bearish_discrepancy then none
  else if direction dex_a dex_b = "BEARISH" ∧
    FloatV.ltb (dominant_volume_ratio dex_a dex_b) (.fin (6 / 5)) = true then none
  else if effective_volume config dex_a dex_b < 1 then none
  else
    match FloatV.add (buy_impact config dex_a dex_b) (sell_impact config dex_a dex_b) with
    | .inf => none
    | .fin price_impact_pct =>
      if impact_threshold dex_a dex_b < price_impact_pct then none
      else if net_profit_usd_calc config native_price_usd gas_price_gwei gas_units
        dex_a dex_b price_impact_pct ≤ 0 then none
      else if direction dex_a dex_b = "BULLISH" ∧
        profit_percentage dex_a dex_b < config.min_bullish_profit then none
      else some
        { pair_name := pair_name
          chain_name := chain_name
          direction := direction dex_a dex_b
          buy_dex := (lower_option dex_a dex_b).dex
          buy_price := (lower_option dex_a dex_b).price
          sell_dex := (higher_option dex_a dex_b).dex
          sell_price := (higher_option dex_a dex_b).price
          gross_diff_pct := profit_percentage dex_a dex_b
          effective_volume := effective_volume config dex_a dex_b
          gross_profit_usd := gross_profit_usd_calc config dex_a dex_b
          gas_cost_usd := gas_cost_usd_calc native_price_usd gas_price_gwei gas_units
          dex_fee_cost := effective_volume config dex_a dex_b * 2 * (config.dex_fee / 100)
          slippage_cost := effective_volume config dex_a dex_b * (config.slippage / 100)
          net_profit_usd := net_profit_usd_calc config native_price_usd gas_price_gwei
            gas_units dex_a dex_b price_impact_pct
          gas_price_gwei := gas_price_gwei
          base_token_address := (lower_option dex_a dex_b).base_token_address
          buy_dex_volume_usd := (lower_option dex_a dex_b).volume_24h
          sell_dex_volume_usd := (higher_option dex_a dex_b).volume_24h
          dominant_is_buy_side := dominant_is_buy_side dex_a dex_b
          dominant_volume_ratio := dominant_volume_ratio dex_a dex_b
          price_impact_pct := price_impact_pct
          buy_price_change_h1 := (lower_option dex_a dex_b).price_change_h1
          sell_price_change_h1 := (higher_option dex_a dex_b).price_change_h1
          short_term_volume_ratio := calculate_short_term_volume_ratio
            (lower_option dex_a dex_b) (higher_option dex_a dex_b)
          short_term_txns_total := (lower_option dex_a dex_b).txns_m5_total
            + (higher_option dex_a dex_b).txns_m5_total
          is_early_momentum := opportunity_is_early dex_a dex_b }

/-- Model of `OpportunityAnalyzer.find_opportunities`
(src/analysis/analyzer.py lines 22-214).  `pairs_data` is `none` when the
payload is falsy or lacks the `pairs` key; `gas_units` stands for the
per-chain constant `GAS_UNITS_PER_SWAP[chain_name]`. -/
def find_opportunities (config : AppConfig) (pairs_data : Option (List RawPair))
    (target_token : String) (native_price_usd gas_price_gwei : ℚ)
    (chain_name : String) (gas_units : ℚ) : List ArbitrageOpportunity :=
  match pairs_data with
  | none => []
  | some pairs =>
    if pairs = [] then []
    else
      let target_lower := lowerString target_token
      let entries := pairs.filterMap (parsePair config target_lower chain_name)
      (groupPrices entries).flatMap fun g =>
        if g.2.length < 2 then []
        else (venuePairs g.2).filterMap fun ab =>
          evalCombo config g.1 chain_name native_price_usd gas_price_gwei gas_units ab.1 ab.2

/-- src/analysis/models.py `MultiLegArbitrageOpportunity`. -/
structure MultiLegArbitrageOpportunity where
  chain_name : String
  cycle_path : List String
  trade_volume_usd : ℚ
  gross_profit_usd : ℚ
  net_profit_usd : ℚ
  gas_cost_usd : ℚ
  num_swaps : ℕ
deriving DecidableEq, Repr

/-- One directed edge of the exchange graph built by
`build_graph_from_pairs` (src/analysis/multi_leg_analyzer.py lines 10-54):
`rate` is the forward exchange rate and `weight` the stored `-ln(rate)`
float.  The graph is modelled as a plain edge list carrying both fields. -/
structure GraphEdge where
  src : String
  dst : String
  rate : ℚ
  weight : ℚ
deriving DecidableEq, Repr

/-- Edge lookup `graph.get_edge_data(u, v)`. -/
def edgeLookup (graph : List GraphEdge) (u v : String) : Option GraphEdge :=
  graph.find? (fun e => decide (e.src = u) && decide (e.dst = v))

/-- `token_prices_usd.get(addr)`. -/
def lookupPrice (token_prices_usd : List (String × ℚ)) (addr : String) : Option ℚ :=
  (token_prices_usd.find? (fun p => decide (p.1 = addr))).map Prod.snd

/-- `token_map.get(addr, addr[:6])` (src/analysis/multi_leg_analyzer.py
line 105): resolve a token symbol, falling back to the first six characters
of the address. -/
def symbolFor (token_map : List (String × String)) (addr : String) : String :=
  (((token_map.find? (fun p => decide (p.1 = addr))).map Prod.snd).getD (addr.take 6))

/-- The consecutive `(cycle[i], cycle[(i+1) % n])` pairs walked by the cycle
loops (src/analysis/multi_leg_analyzer.py lines 81-83 and 146). -/
def cycleEdges (cycle : List String) : List (String × String) :=
  cycle.zip (cycle.rotate 1)

/-- The per-leg multiplication loop of `calculate_cycle_profitability`
(src/analysis/multi_leg_analyzer.py lines 81-91): multiply by the edge rate,
then deduct the DEX fee and the slippage of the leg.  A missing edge (which
would raise in the source; it cannot happen for cycles produced from the same
graph) yields `none`. -/
def applyLegs (graph : List GraphEdge) (config : AppConfig) :
    List (String × String) → ℚ → Option ℚ
  | [], qty => some qty
  | uv :: rest, qty =>
    match edgeLookup graph uv.1 uv.2 with
    | none => none
    | some e => applyLegs graph config rest
        (qty * e.rate * (1 - config.dex_fee / 100) * (1 - config.slippage / 100))

/-- Model of `calculate_cycle_profitability`
(src/analysis/multi_leg_analyzer.py lines 56-110).  An empty cycle, whose
`cycle[0]` would raise in the source, yields `none`. -/
def calculate_cycle_profitability (cycle : List String) (graph : List GraphEdge)
    (config : AppConfig) (gas_cost_usd : ℚ) (token_map : List (String × String))
    (chain_name : String) (token_prices_usd : List (String × ℚ)) :
    Option MultiLegArbitrageOpportunity :=
  match cycle with
  | [] => none
  | start :: _ =>
    let num_swaps := cycle.length
    match lookupPrice token_prices_usd start with
    | none => none
    | some start_price =>
      if start_price ≤ 0 then none
      else
        let initial_token_quantity := config.trade_volume / start_price
        match applyLegs graph config (cycleEdges cycle) initial_token_quantity with
        | none => none
        | some final_qty =>
          let final_amount_usd := final_qty * start_price
          let gross_profit_usd := final_amount_usd - config.trade_volume
          let total_gas_cost := gas_cost_usd * (num_swaps : ℚ)
          let net_profit_usd := gross_profit_usd - total_gas_cost
          let cycle_path_symbols :=
            cycle.map (symbolFor token_map) ++ [symbolFor token_map start]
          if config.min_profit < net_profit_usd then
            some { chain_name := chain_name, cycle_path := cycle_path_symbols,
                   trade_volume_usd := config.trade_volume,
                   gross_profit_usd := gross_profit_usd,
                   net_profit_usd := net_profit_usd,
                   gas_cost_usd := total_gas_cost, num_swaps := num_swaps }
          else none

/-- Sum of the stored edge weights around a cycle
(src/analysis/multi_leg_analyzer.py lines 146-147); `none` when an edge is
missing from the graph (a `KeyError` in the source). -/
def pathWeight (graph : List GraphEdge) (cycle : List String) : Option ℚ :=
  (cycleEdges cycle).foldl
    (fun acc uv =>
      match acc, edgeLookup graph uv.1 uv.2 with
      | some s, some e => some (s + e.weight)
      | _, _ => none)
    (some 0)

/-- Model of `find_multi_leg_opportunities`
(src/analysis/multi_leg_analyzer.py lines 112-154).  The enumeration
`nx.simple_cycles(graph, length_bound)` is external library code; the model
therefore takes the produced cycle list as the parameter `cycles` and holds
for every such list.  `token_prices_usd` stands for the address→USD map the
function assembles from the raw pair payload before the loop. -/
def find_multi_leg_opportunities (graph : List GraphEdge) (config : AppConfig)
    (gas_cost_usd : ℚ) (token_map : List (String × String)) (chain_name : String)
    (cycles : List (List String)) (token_prices_usd : List (String × ℚ)) :
    List MultiLegArbitrageOpportunity :=
  cycles.filterMap fun cycle =>
    if cycle.length < 3 then none
    else
      match pathWeight graph cycle with
      | none => none
      | some w =>
        if w < 0 then
          calculate_cycle_profitability cycle graph config gas_cost_usd token_map
            chain_name token_prices_usd
        else none

/-- src/services/onchain_price_validator.py `PairValidationResult`. -/
structure PairValidationResult where
  validated : Bool
  passed : Bool
  price_usd : Option ℚ
  diff_pct : Option ℚ
  block_number : Option ℕ
  error : Option String
deriving DecidableEq, Repr

/-- Python truthiness test `not s` for an optional string: true for `None`
and for the empty string. -/
def strFalsy : Option String → Bool
  | none => true
  | some s => decide (s = "")

/-- `OnChainPriceValidator._normalise_address`
(src/services/onchain_price_validator.py lines 311-316). -/
def normalise_address (address : String) : String :=
  if address = "" then address
  else if List.isPrefixOf "0x".data address.data then "0x" ++ lowerString (address.drop 2)
  else "0x" ++ lowerString address

/-- Lookup in a per-chain token table (`chain_tokens.get(key)`). -/
def lookupStr (l : List (String × String)) (k : String) : Option String :=
  (l.find? (fun p => decide (p.1 = k))).map Prod.snd

/-- Whether `chain_tokens.get(key)` is truthy and case-insensitively equal to
the lower-cased counter address (the comparison made for each table key in
`_counter_to_usd`). -/
def tokenKeyMatches (chain_tokens : List (String × String)) (key counter_lower : String) :
    Bool :=
  match lookupStr chain_tokens key with
  | some addr => !decide (addr = "") && decide (counter_lower = lowerString addr)
  | none => false

/-- `OnChainPriceValidator._counter_to_usd`
(src/services/onchain_price_validator.py lines 279-309): a stablecoin match
returns the counter-unit price as USD; a wrapped-native match (only consulted
when a native USD price is supplied) multiplies by that price; otherwise
`None`. -/
def counter_to_usd (common_token_addresses : List (String × List (String × String)))
    (chain_name counter_token_address : String) (price_in_counter : ℚ)
    (native_price_usd : Option ℚ) : Option ℚ :=
  let chain_tokens :=
    (((common_token_addresses.find? (fun p => decide (p.1 = chain_name))).map Prod.snd).getD [])
  let counter_lower := lowerString counter_token_address
  if ["usdc", "usdt", "dai"].any (fun key => tokenKeyMatches chain_tokens key counter_lower)
  then some price_in_counter
  else
    match native_price_usd with
    | some native =>
      if ["weth", "wmatic", "wbnb"].any (fun key => tokenKeyMatches chain_tokens key counter_lower)
      then some (price_in_counter * native)
      else none
    | none => none

/-- The counter token the validator ends up pricing
(src/services/onchain_price_validator.py lines 121-128): the pair's other
token, overridden by a truthy explicit `counter_token_address` parameter
(normalised; the source only reassigns when it differs, which yields the same
value). -/
def resolved_counter_token (token0 token1 : String) (target_is_token0 : Bool)
    (counter_token_address : Option String) : String :=
  let counter0 := if target_is_token0 then token1 else token0
  match counter_token_address with
  | some c => if c = "" then counter0 else normalise_address c
  | none => counter0

/-- Model of `OnChainPriceValidator.validate_pair_price`
(src/services/onchain_price_validator.py lines 51-211).  The network fetches
are abstracted as already-delivered outcomes: `blockRes` for
`_get_latest_block_number`, `tokensRes` for `_get_pair_tokens` (its decoded,
possibly missing addresses), `reservesRes` for `_get_reserves`, and
`decimalsRes` for `_get_decimals` per token address; `Except.error e` models
a raised exception with text `e`.  Every return of the source is a structured
result; nothing raises out of the function. -/
def validate_pair_price (common_token_addresses : List (String × List (String × String)))
    (max_pct_diff : ℚ) (chain_name : String)
    (pair_address target_token_address counter_token_address : Option String)
    (dex_price_usd : ℚ) (native_price_usd : Option ℚ)
    (blockRes : Except String ℕ)
    (tokensRes : Except String (Option String × Option String))
    (reservesRes : Except String (ℕ × ℕ × ℕ))
    (decimalsRes : String → Except String ℕ) : PairValidationResult :=
  if strFalsy pair_address || strFalsy target_token_address then
    ⟨false, false, none, none, none, some "missing_pair_metadata"⟩
  else
    let target_addr := normalise_address (target_token_address.getD "")
    match blockRes with
    | .error e => ⟨false, false, none, none, none, some ("block_number_error:" ++ e)⟩
    | .ok block_number =>
      match tokensRes with
      | .error e =>
        ⟨false, false, none, none, some block_number, some ("token_resolution_error:" ++ e)⟩
      | .ok (token0?, token1?) =>
        match token0?, token1? with
        | some token0, some token1 =>
          if target_addr = token0 ∨ target_addr = token1 then
            let target_is_token0 := decide (target_addr = token0)
            let counter_token :=
              resolved_counter_token token0 token1 target_is_token0 counter_token_address
            match reservesRes with
            | .error e =>
              ⟨false, false, none, none, some block_number, some ("reserve_fetch_error:" ++ e)⟩
            | .ok (reserve0, reserve1, _) =>
              let reserve_target := if target_is_token0 then reserve0 else reserve1
              let reserve_counter := if target_is_token0 then reserve1 else reserve0
              if reserve_target = 0 ∨ reserve_counter = 0 then
                ⟨false, false, none, none, some block_number, some "empty_reserves"⟩
              else
                match decimalsRes target_addr with
                | .error e =>
                  ⟨false, false, none, none, some block_number, some ("decimals_error:" ++ e)⟩
                | .ok target_decimals =>
                  match decimalsRes counter_token with
                  | .error e =>
                    ⟨false, false, none, none, some block_number, some ("decimals_error:" ++ e)⟩
                  | .ok counter_decimals =>
                    let reserve_target_float : ℚ := (reserve_target : ℚ) / 10 ^ target_decimals
                    let reserve_counter_float : ℚ := (reserve_counter : ℚ) / 10 ^ counter_decimals
                    if reserve_target_float ≤ 0 then
                      ⟨false, false, none, none, some block_number, some "invalid_reserve_ratio"⟩
                    else
                      let price_in_counter := reserve_counter_float / reserve_target_float
                      match counter_to_usd common_token_addresses chain_name counter_token
                        price_in_counter native_price_usd with
                      | none =>
                        ⟨false, false, none, none, some block_number, some "unsupported_quote_token"⟩
                      | some usd_price =>
                        if 0 < dex_price_usd then
                          let diff_pct := |usd_price - dex_price_usd| / dex_price_usd * 100
                          let passed := decide (diff_pct ≤ max_pct_diff)
                          ⟨true, passed, some usd_price, some diff_pct, some block_number,
                            if passed then none else some "price_mismatch"⟩
                        else
                          ⟨true, false, some usd_price, none, some block_number, none⟩
          else ⟨false, false, none, none, some block_number, some "target_not_in_pair"⟩
        | _, _ =>
          ⟨false, false, none, none, some block_number, some "token_resolution_missing"⟩

/-! Concrete inputs used by the witness theorems. -/

/-- Demo configuration for the analyzer witnesses. -/
def demoCfg : AppConfig :=
  { dex_fee := 3 / 10, slippage := 1 / 2, min_bullish_profit := 1,
    min_bearish_discrepancy := 1, trade_volume := 100, min_liquidity := 1000,
    min_volume := 1000, min_txns_h1 := 0, min_profit := 0 }

/-- Demo configuration with the 24h-volume floor disabled. -/
def demoCfg0 : AppConfig := { demoCfg with min_volume := 0 }

/-- A demo raw pair record on chain `base`. -/
def demoRawPair (dex : String) (price vol : ℚ) : RawPair :=
  { chainId := some "base", dexId := some dex,
    baseToken := some ⟨"AAA", "0xaaa"⟩, quoteToken := some ⟨"USDC", "0xusdc"⟩,
    priceUsd := some price, priceNative := some 1,
    liquidityUsd := some 100000, volH24 := some vol, volM5 := some 0,
    txnsH1Buys := some 5, txnsH1Sells := some 5,
    txnsM5Buys := some 0, txnsM5Sells := some 0, priceChangeH1 := none }

/-- Fallback opportunity value for `headD` in witnesses. -/
def demoOpp : ArbitrageOpportunity :=
  { pair_name := "", chain_name := "", direction := "", buy_dex := "", buy_price := 0,
    sell_dex := "", sell_price := 0, gross_diff_pct := 0, effective_volume := 0,
    gross_profit_usd := 0, gas_cost_usd := 0, dex_fee_cost := 0, slippage_cost := 0,
    net_profit_usd := 0, gas_price_gwei := 0, base_token_address := "",
    buy_dex_volume_usd := 0, sell_dex_volume_usd := 0, dominant_is_buy_side := false,
    dominant_volume_ratio := .fin 0, price_impact_pct := 0, buy_price_change_h1 := none,
    sell_price_change_h1 := none, short_term_volume_ratio := 0, short_term_txns_total := 0,
    is_early_momentum := false }

/-- Demo scan: venue `dex1` cheaper with the larger 24h volume (BULLISH). -/
def demoOppsBullish : List ArbitrageOpportunity :=
  find_opportunities demoCfg
    (some [demoRawPair "dex1" 100 80000, demoRawPair "dex2" 105 20000])
    "AAA" 1 1 "base" 150000

/-- Demo scan: venue `dex1` dearer with the larger 24h volume (BEARISH). -/
def demoOppsBearish : List ArbitrageOpportunity :=
  find_opportunities demoCfg
    (some [demoRawPair "dex1" 105 80000, demoRawPair "dex2" 100 20000])
    "AAA" 1 1 "base" 150000

/-- Demo venue-pair entries with equal 24h volumes. -/
def demoEntryLow : PriceEntry := ⟨"dex1", 100, 100000, 50000, 0, 0, "0xaaa", none, false⟩

/-- Second entry of the equal-volume demo. -/
def demoEntryHigh : PriceEntry := ⟨"dex2", 105, 100000, 50000, 0, 0, "0xaaa", none, false⟩

/-- Demo entry with a large 24h volume. -/
def demoEntryBigVol : PriceEntry := ⟨"dex1", 100, 100000, 80000, 0, 0, "0xaaa", none, false⟩

/-- Demo entry with zero 24h volume. -/
def demoEntryZeroVol : PriceEntry := ⟨"dex2", 105, 100000, 0, 0, 0, "0xaaa", none, false⟩

/-- Demo configuration for the multi-leg witness: no fees, no slippage. -/
def mlCfg : AppConfig :=
  { dex_fee := 0, slippage := 0, min_bullish_profit := 0,
    min_bearish_discrepancy := 0, trade_volume := 100, min_liquidity := 0,
    min_volume := 0, min_txns_h1 := 0, min_profit := 0 }

/-- Demo exchange graph: a triangle with rate 2 and stored weight -1 per leg. -/
def mlGraph : List GraphEdge :=
  [⟨"A", "B", 2, -1⟩, ⟨"B", "C", 2, -1⟩, ⟨"C", "A", 2, -1⟩]

/-- Fallback multi-leg opportunity for `headD` in witnesses. -/
def mlDefault : MultiLegArbitrageOpportunity := ⟨"", [], 0, 0, 0, 0, 0⟩

/-- Demo multi-leg scan over the triangle cycle. -/
def mlDemo : List MultiLegArbitrageOpportunity :=
  find_multi_leg_opportunities mlGraph mlCfg 0 [] "base" [["A", "B", "C"]] [("A", 1)]

/-- Demo per-chain token table for the validator witnesses. -/
def vTable : List (String × List (String × String)) :=
  [("base", [("usdc", "0xusdc"), ("weth", "0xweth")])]

/-- Demo decimals oracle: every token reports 18 decimals. -/
def vDecimals : String → Except String ℕ := fun _ => .ok 18

/-! Theorems.  Claim theorems are named `claim_*`; shared helper lemmas come
first. -/

theorem volume_component_nonneg (v : VDiv) : 0 ≤ volume_component v := by
  cases v with
  | fin x =>
    simp only [volume_component]
    split_ifs with h
    · norm_num
    · have hx : 0 < x := lt_of_not_ge h
      have h1 : (1 : ℝ) ≤ 1 + min x 50 := by
        have : (0 : ℝ) ≤ min x 50 := le_min hx.le (by norm_num)
        linarith
      have hl : 0 ≤ Real.log (1 + min x 50) := Real.log_nonneg h1
      have hd : 0 < Real.log (1 + 50) := Real.log_pos (by norm_num)
      exact mul_nonneg (div_nonneg hl hd.le) (by norm_num)
  | posInf => norm_num [volume_component]
  | negInf => norm_num [volume_component]
  | nan => norm_num [volume_component]

theorem volume_component_mono {x y : ℝ} (hx : 0 < x) (hxy : x ≤ y) :
    volume_component (VDiv.fin x) ≤ volume_component (VDiv.fin y) := by
  simp only [volume_component]
  rw [if_neg (by linarith), if_neg (by linarith)]
  have h1 : (0 : ℝ) < 1 + min x 50 := by
    have : (0 : ℝ) < min x 50 := lt_min hx (by norm_num)
    linarith
  have hlog : Real.log (1 + min x 50) ≤ Real.log (1 + min y 50) :=
    Real.log_le_log h1 (by have := min_le_min hxy (le_refl (50 : ℝ)); linarith)
  have hd : 0 < Real.log (1 + 50) := Real.log_pos (by norm_num)
  gcongr

theorem persistence_component_nonneg (c : ℤ) : 0 ≤ persistence_component c := by
  unfold persistence_component
  have h : (((max 0 (min c 12) : ℤ) : ℝ)) ≥ 0 := by
    have : (0 : ℤ) ≤ max 0 (min c 12) := le_max_left 0 _
    exact_mod_cast this
  have : Real.exp (-((max 0 (min c 12) : ℤ) : ℝ) / 2) ≤ 1 := by
    rw [show (1 : ℝ) = Real.exp 0 from (Real.exp_zero).symm]
    exact Real.exp_le_exp.mpr (by linarith)
  linarith

theorem persistence_component_mono {c₁ c₂ : ℤ} (hc : c₁ ≤ c₂) :
    persistence_component c₁ ≤ persistence_component c₂ := by
  unfold persistence_component
  have hclamp : (((max 0 (min c₁ 12) : ℤ) : ℝ)) ≤ ((max 0 (min c₂ 12) : ℤ) : ℝ) := by
    have : (max 0 (min c₁ 12) : ℤ) ≤ max 0 (min c₂ 12) :=
      max_le_max le_rfl (min_le_min hc le_rfl)
    exact_mod_cast this
  have : Real.exp (-((max 0 (min c₂ 12) : ℤ) : ℝ) / 2)
      ≤ Real.exp (-((max 0 (min c₁ 12) : ℤ) : ℝ) / 2) :=
    Real.exp_le_exp.mpr (by linarith)
  linarith

/-- C6: for every volume divergence (finite of any sign, `+inf`, `-inf` or
`nan`), every persistence count, every RSI value and either direction flag,
`calculate_momentum_score` stays within `[0, 10]`; in the real-valued model
the score is a real number, hence finite, and in particular the `+inf`
divergence instance is bounded by 10. -/
theorem claim_momentum_score_bounded (volume_divergence : VDiv)
    (persistence_count : ℤ) (rsi_value : ℝ) (dominant_dex_has_lower_price : Bool) :
    (0 ≤ calculate_momentum_score volume_divergence persistence_count rsi_value
        dominant_dex_has_lower_price ∧
      calculate_momentum_score volume_divergence persistence_count rsi_value
        dominant_dex_has_lower_price ≤ 10) ∧
    calculate_momentum_score VDiv.posInf persistence_count rsi_value
        dominant_dex_has_lower_price ≤ 10 := by
  have key : ∀ v : VDiv, 0 ≤ calculate_momentum_score v persistence_count rsi_value
      dominant_dex_has_lower_price ∧
      calculate_momentum_score v persistence_count rsi_value
        dominant_dex_has_lower_price ≤ 10 := by
    intro v
    unfold calculate_momentum_score
    exact ⟨le_max_left 0 _, max_le (by norm_num) (min_le_right _ 10)⟩
  exact ⟨key volume_divergence, (key VDiv.posInf).2⟩

/-- C2 (amended): the momentum score is monotonically non-decreasing in
`persistence_count` over all integers, and monotonically non-decreasing in
`volume_divergence` over the strictly positive finite values; the original
claim's quantification over all real divergences fails (see the
counterexample: a non-positive divergence is treated as maximal). -/
theorem claim_momentum_score_monotone (v : VDiv) (r : ℝ) (d : Bool)
    (c₁ c₂ : ℤ) (x y : ℝ) (hc : c₁ ≤ c₂) (hx : 0 < x) (hxy : x ≤ y) :
    calculate_momentum_score v c₁ r d ≤ calculate_momentum_score v c₂ r d ∧
    calculate_momentum_score (VDiv.fin x) c₁ r d
      ≤ calculate_momentum_score (VDiv.fin y) c₁ r d := by
  have hpc := persistence_component_mono hc
  have hvc := volume_component_mono hx hxy
  constructor
  · simp only [calculate_momentum_score, consistency_bonus]
    gcongr
  · simp only [calculate_momentum_score, consistency_bonus]
    gcongr

/-- Witness for the amended C2 monotonicity at concrete inputs. -/
theorem claim_momentum_score_monotone_witness :
    calculate_momentum_score (VDiv.fin 2) 1 50 true
      ≤ calculate_momentum_score (VDiv.fin 2) 2 50 true ∧
    calculate_momentum_score (VDiv.fin 1) 1 50 true
      ≤ calculate_momentum_score (VDiv.fin 2) 1 50 true :=
  claim_momentum_score_monotone (VDiv.fin 2) 50 true 1 2 1 2
    (by norm_num) (by norm_num) (by norm_num)

/-- C2 counterexample: with persistence 0, RSI 50 and the upward flag held
fixed, raising the volume divergence from 0 to 1 strictly lowers the score
(a divergence of 0 takes the non-positive branch and scores the maximal
volume component 4, while a divergence of 1 scores `log 2 / log 51 * 4 < 4`),
so the score is not monotonically non-decreasing over all real divergences. -/
theorem claim_momentum_score_monotone_counterexample :
    calculate_momentum_score (VDiv.fin 1) 0 50 true
      < calculate_momentum_score (VDiv.fin 0) 0 50 true := by
  have hd : 0 < Real.log (1 + 50) := Real.log_pos (by norm_num)
  have hvc0 : 0 ≤ volume_component (VDiv.fin 1) := volume_component_nonneg _
  have hvc4 : volume_component (VDiv.fin 1) < 4 := by
    simp only [volume_component]
    rw [if_neg (by norm_num)]
    have hlt : Real.log (1 + min (1 : ℝ) 50) < Real.log (1 + 50) := by
      apply Real.log_lt_log (by norm_num) (by norm_num)
    have h1 : Real.log (1 + min (1 : ℝ) 50) / Real.log (1 + 50) < 1 :=
      (div_lt_one hd).mpr hlt
    linarith
  have hpc : persistence_component 0 = 0 := by
    unfold persistence_component
    norm_num
  have hrc : rsi_component 50 true = 0 := by
    unfold rsi_component
    norm_num
  have h0 : calculate_momentum_score (VDiv.fin 0) 0 50 true = 53 / 10 := by
    simp only [calculate_momentum_score, consistency_bonus, volume_component, hpc, hrc]
    norm_num
  have h1 : calculate_momentum_score (VDiv.fin 1) 0 50 true
      = max 0 (min (13 / 10 + volume_component (VDiv.fin 1)) 10) := by
    simp only [calculate_momentum_score, consistency_bonus, hpc, hrc]
    have hmin : min (volume_component (VDiv.fin 1) / 4) ((0 : ℝ) / 3) = 0 := by
      rw [show ((0 : ℝ) / 3) = 0 by norm_num]
      exact min_eq_right (by positivity)
    rw [hmin]
    ring_nf
  rw [h0, h1]
  rw [min_eq_left (by linarith), max_eq_right (by linarith)]
  linarith

/-- C8: `calculate_rsi` errors on every non-positive period; for a positive
period it returns `none` exactly when fewer than `period + 1` price points
are supplied, and with at least `period + 1` points it returns a numeric
value. -/
theorem claim_calculate_rsi_arity (prices : List ℚ) (period : ℤ) :
    (period ≤ 0 → calculate_rsi prices period = .error "RSI period must be positive") ∧
    (0 < period →
      (calculate_rsi prices period = .ok none ↔ (prices.length : ℤ) < period + 1)) ∧
    (0 < period → period + 1 ≤ (prices.length : ℤ) →
      ∃ v, calculate_rsi prices period = .ok (some v)) := by
  have hsome : 0 < period → period < (prices.length : ℤ) →
      ∃ v, calculate_rsi prices period = .ok (some v) := by
    intro hp hlen
    unfold calculate_rsi
    rw [if_neg (by omega), if_neg (by omega)]
    dsimp only
    split_ifs <;> exact ⟨_, rfl⟩
  refine ⟨fun h => by unfold calculate_rsi; rw [if_pos h], fun hp => ?_,
    fun hp hlen => hsome hp (by omega)⟩
  constructor
  · intro he
    by_contra hlen
    obtain ⟨v, hv⟩ := hsome hp (by omega)
    rw [hv] at he
    exact Option.noConfusion (Except.ok.inj he)
  · intro hlen
    unfold calculate_rsi
    rw [if_neg (by omega), if_pos (by omega)]

/-- Witness for C8 at concrete inputs: period 2 with three points yields a
numeric RSI. -/
theorem claim_calculate_rsi_arity_witness :
    ∃ v, calculate_rsi [1, 2, 3] 2 = .ok (some v) :=
  (claim_calculate_rsi_arity [1, 2, 3] 2).2.2 (by decide) (by decide)

theorem calculate_cycle_profitability_spec
    {cycle : List String} {graph : List GraphEdge} {config : AppConfig}
    {gas_cost_usd : ℚ} {token_map : List (String × String)} {chain_name : String}
    {token_prices_usd : List (String × ℚ)} {o : MultiLegArbitrageOpportunity}
    (h : calculate_cycle_profitability cycle graph config gas_cost_usd token_map
      chain_name token_prices_usd = some o) :
    o.num_swaps = cycle.length ∧ config.min_profit < o.net_profit_usd ∧
    o.cycle_path.length = cycle.length + 1 ∧
    o.cycle_path.head? = o.cycle_path.getLast? := by
  match cycle, h with
  | start :: rest, h =>
    unfold calculate_cycle_profitability at h
    dsimp only at h
    split at h
    · exact absurd h (by simp)
    · split at h
      · exact absurd h (by simp)
      · split at h
        · exact absurd h (by simp)
        · split at h
          · rw [Option.some.injEq] at h
            rename_i hprofit
            subst h
            refine ⟨rfl, hprofit, by simp, ?_⟩
            rw [List.getLast?_concat]
            simp
          · exact absurd h (by simp)


/-- C3: every multi-leg opportunity returned by
`find_multi_leg_opportunities` has at least three swaps, a net profit
strictly above the configured minimum, and a cycle path of `num_swaps + 1`
symbols that starts and ends with the same symbol (a closed loop). -/
theorem claim_multi_leg_invariants (graph : List GraphEdge) (config : AppConfig)
    (gas_cost_usd : ℚ) (token_map : List (String × String)) (chain_name : String)
    (cycles : List (List String)) (token_prices_usd : List (String × ℚ))
    (o : MultiLegArbitrageOpportunity)
    (ho : o ∈ find_multi_leg_opportunities graph config gas_cost_usd token_map
      chain_name cycles token_prices_usd) :
    3 ≤ o.num_swaps ∧ config.min_profit < o.net_profit_usd ∧
    o.cycle_path.length = o.num_swaps + 1 ∧
    o.cycle_path.head? = o.cycle_path.getLast? := by
  rw [find_multi_leg_opportunities, List.mem_filterMap] at ho
  obtain ⟨cycle, -, hc⟩ := ho
  split_ifs at hc with hlen
  split at hc
  · exact absurd hc (by simp)
  · split_ifs at hc with hw
    obtain ⟨hswaps, hnet, hpath, hloop⟩ := calculate_cycle_profitability_spec hc
    exact ⟨by omega, hnet, by rw [hpath, hswaps], hloop⟩

/-- Witness for C3: a concrete triangular cycle with rate 2 on each leg, no
fees, and a negative stored path weight yields an emitted opportunity
satisfying all three invariants. -/
theorem claim_multi_leg_invariants_witness :
    3 ≤ (mlDemo.headD mlDefault).num_swaps ∧
    mlCfg.min_profit < (mlDemo.headD mlDefault).net_profit_usd ∧
    (mlDemo.headD mlDefault).cycle_path.length = (mlDemo.headD mlDefault).num_swaps + 1 ∧
    (mlDemo.headD mlDefault).cycle_path.head? = (mlDemo.headD mlDefault).cycle_path.getLast? :=
  claim_multi_leg_invariants mlGraph mlCfg 0 [] "base" [["A", "B", "C"]] [("A", 1)]
    (mlDemo.headD mlDefault) (by decide)

theorem evalCombo_spec {config : AppConfig} {pair_name chain_name : String}
    {native_price_usd gas_price_gwei gas_units : ℚ} {dex_a dex_b : PriceEntry}
    {o : ArbitrageOpportunity}
    (h : evalCombo config pair_name chain_name native_price_usd gas_price_gwei
      gas_units dex_a dex_b = some o) :
    o.buy_price < o.sell_price ∧ 0 < o.net_profit_usd ∧
    o.direction = direction dex_a dex_b ∧
    o.dominant_is_buy_side = dominant_is_buy_side dex_a dex_b ∧
    o.dominant_volume_ratio = dominant_volume_ratio dex_a dex_b ∧
    o.gross_diff_pct = profit_percentage dex_a dex_b ∧
    (direction dex_a dex_b = "BEARISH" →
      config.min_bearish_discrepancy ≤ profit_percentage dex_a dex_b ∧
      FloatV.ltb (dominant_volume_ratio dex_a dex_b) (.fin (6 / 5)) = false) := by
  unfold evalCombo at h
  simp only [Option.ite_none_left_eq_some] at h
  obtain ⟨h1, h2, h3, h4, h5, h6, h7, h⟩ := h
  split at h
  · exact absurd h (by simp)
  · simp only [Option.ite_none_left_eq_some, Option.some.injEq] at h
    obtain ⟨h8, h9, h10, h⟩ := h
    subst h
    refine ⟨by dsimp only; linarith, by dsimp only; linarith, rfl, rfl, rfl, rfl, ?_⟩
    intro hdir
    constructor
    · by_contra hlt
      exact h5 ⟨hdir, lt_of_not_ge hlt⟩
    · cases hb : FloatV.ltb (dominant_volume_ratio dex_a dex_b) (.fin (6 / 5)) with
      | false => rfl
      | true => exact absurd ⟨hdir, hb⟩ h6

theorem find_opportunities_mem {config : AppConfig} {pairs_data : Option (List RawPair)}
    {target_token : String} {native_price_usd gas_price_gwei : ℚ}
    {chain_name : String} {gas_units : ℚ} {o : ArbitrageOpportunity}
    (ho : o ∈ find_opportunities config pairs_data target_token native_price_usd
      gas_price_gwei chain_name gas_units) :
    ∃ pn dex_a dex_b, evalCombo config pn chain_name native_price_usd gas_price_gwei
      gas_units dex_a dex_b = some o := by
  unfold find_opportunities at ho
  split at ho
  · simp at ho
  · split_ifs at ho
    · simp at ho
    · rw [List.mem_flatMap] at ho
      obtain ⟨g, -, hg⟩ := ho
      split_ifs at hg
      · simp at hg
      · rw [List.mem_filterMap] at hg
        obtain ⟨ab, -, hab⟩ := hg
        exact ⟨g.1, ab.1, ab.2, hab⟩

/-- C1: every opportunity in the list returned by `find_opportunities`, for
any payload and configuration, has a sell price strictly above its buy price
and a strictly positive net profit. -/
theorem claim_find_opportunities_invariants (config : AppConfig)
    (pairs_data : Option (List RawPair)) (target_token : String)
    (native_price_usd gas_price_gwei : ℚ) (chain_name : String) (gas_units : ℚ)
    (o : ArbitrageOpportunity)
    (ho : o ∈ find_opportunities config pairs_data target_token native_price_usd
      gas_price_gwei chain_name gas_units) :
    o.buy_price < o.sell_price ∧ 0 < o.net_profit_usd := by
  obtain ⟨pn, dex_a, dex_b, h⟩ := find_opportunities_mem ho
  exact ⟨(evalCombo_spec h).1, (evalCombo_spec h).2.1⟩

/-- Witness for C1: the spec's BULLISH example payload emits an opportunity
satisfying the invariant. -/
theorem claim_find_opportunities_invariants_witness :
    (demoOppsBullish.headD demoOpp).buy_price < (demoOppsBullish.headD demoOpp).sell_price ∧
    0 < (demoOppsBullish.headD demoOpp).net_profit_usd :=
  claim_find_opportunities_invariants demoCfg
    (some [demoRawPair "dex1" 100 80000, demoRawPair "dex2" 105 20000])
    "AAA" 1 1 "base" 150000 (demoOppsBullish.headD demoOpp) (by decide)

/-- C4: every opportunity emitted by `find_opportunities` with direction
`BEARISH` has a gross spread percent of at least the configured minimum
bearish discrepancy and a dominant volume ratio of at least 1.2 (its
Python-float comparison `ratio < 1.2` is false); a bearish candidate failing
either bound is skipped, so it never appears in the output. -/
theorem claim_bearish_filters (config : AppConfig)
    (pairs_data : Option (List RawPair)) (target_token : String)
    (native_price_usd gas_price_gwei : ℚ) (chain_name : String) (gas_units : ℚ)
    (o : ArbitrageOpportunity)
    (ho : o ∈ find_opportunities config pairs_data target_token native_price_usd
      gas_price_gwei chain_name gas_units)
    (hdir : o.direction = "BEARISH") :
    config.min_bearish_discrepancy ≤ o.gross_diff_pct ∧
    FloatV.ltb o.dominant_volume_ratio (.fin (6 / 5)) = false := by
  obtain ⟨pn, dex_a, dex_b, h⟩ := find_opportunities_mem ho
  obtain ⟨-, -, hdir', -, hratio, hpct, hbear⟩ := evalCombo_spec h
  rw [hdir'] at hdir
  obtain ⟨hb1, hb2⟩ := hbear hdir
  exact ⟨by rw [hpct]; exact hb1, by rw [hratio]; exact hb2⟩

/-- Witness for C4: the spec's BEARISH example payload emits a BEARISH
opportunity meeting both bounds. -/
theorem claim_bearish_filters_witness :
    demoCfg.min_bearish_discrepancy ≤ (demoOppsBearish.headD demoOpp).gross_diff_pct ∧
    FloatV.ltb (demoOppsBearish.headD demoOpp).dominant_volume_ratio (.fin (6 / 5)) = false :=
  claim_bearish_filters demoCfg
    (some [demoRawPair "dex1" 105 80000, demoRawPair "dex2" 100 20000])
    "AAA" 1 1 "base" 150000 (demoOppsBearish.headD demoOpp) (by decide) (by decide)

/-- C5: when the two quotes of an evaluated venue pair have exactly equal 24h
volumes (with the distinct positive prices and distinct venues that any
emitted combination has), the lower-priced venue is the dominant one, so an
opportunity emitted for that pair has `dominant_is_buy_side = true` and
direction `BULLISH`. -/
theorem claim_equal_volume_tiebreak {config : AppConfig}
    {pair_name chain_name : String}
    {native_price_usd gas_price_gwei gas_units : ℚ} {dex_a dex_b : PriceEntry}
    {o : ArbitrageOpportunity}
    (hvol : dex_a.volume_24h = dex_b.volume_24h)
    (h : evalCombo config pair_name chain_name native_price_usd gas_price_gwei
      gas_units dex_a dex_b = some o) :
    dominant_option dex_a dex_b = lower_option dex_a dex_b ∧
    o.dominant_is_buy_side = true ∧ o.direction = "BULLISH" := by
  have hdom : domIsA dex_a dex_b = decide (dex_a.price < dex_b.price) := by
    unfold domIsA
    rw [if_pos hvol]
  have hbuy : dominant_is_buy_side dex_a dex_b = true := by
    unfold dominant_is_buy_side
    rw [hdom]
    exact decide_eq_true rfl
  have hdir : direction dex_a dex_b = "BULLISH" := by
    unfold direction
    rw [hbuy]
    rfl
  obtain ⟨-, -, hdir', hdbs, -, -, -⟩ := evalCombo_spec h
  refine ⟨?_, by rw [hdbs, hbuy], by rw [hdir', hdir]⟩
  unfold dominant_option lower_option
  rw [hdom]
  by_cases hp : dex_a.price < dex_b.price
  · rw [if_pos (by simp [hp]), if_pos hp]
  · rw [if_neg (by simp [hp]), if_neg hp]

/-- Witness for C5: two venues with equal 24h volumes and prices 100/105
emit a BULLISH opportunity whose dominant side is the buy side. -/
theorem claim_equal_volume_tiebreak_witness :
    dominant_option demoEntryLow demoEntryHigh = lower_option demoEntryLow demoEntryHigh ∧
    ((evalCombo demoCfg "AAA/USDC" "base" 1 1 150000 demoEntryLow demoEntryHigh).getD
      demoOpp).dominant_is_buy_side = true ∧
    ((evalCombo demoCfg "AAA/USDC" "base" 1 1 150000 demoEntryLow demoEntryHigh).getD
      demoOpp).direction = "BULLISH" :=
  @claim_equal_volume_tiebreak demoCfg "AAA/USDC" "base" 1 1 150000
    demoEntryLow demoEntryHigh
    ((evalCombo demoCfg "AAA/USDC" "base" 1 1 150000 demoEntryLow demoEntryHigh).getD demoOpp)
    (by decide) (by decide)

/-- C10: whenever the non-dominant venue of an evaluated pair has exactly
zero 24h volume (and the dominant venue a positive one), the dominant volume
ratio is `inf`; the bearish `ratio < 1.2` comparison is then false, so the
filter never drops such a candidate, and the emitted opportunity carries
`dominant_volume_ratio = inf` (the witness exhibits one). -/
theorem claim_zero_volume_ratio_inf {config : AppConfig}
    {pair_name chain_name : String}
    {native_price_usd gas_price_gwei gas_units : ℚ} {dex_a dex_b : PriceEntry}
    {o : ArbitrageOpportunity}
    (h : evalCombo config pair_name chain_name native_price_usd gas_price_gwei
      gas_units dex_a dex_b = some o)
    (hother : (other_option dex_a dex_b).volume_24h = 0)
    (_hdompos : 0 < (dominant_option dex_a dex_b).volume_24h) :
    dominant_volume_ratio dex_a dex_b = FloatV.inf ∧
    FloatV.ltb (dominant_volume_ratio dex_a dex_b) (.fin (6 / 5)) = false ∧
    o.dominant_volume_ratio = FloatV.inf := by
  have hratio : dominant_volume_ratio dex_a dex_b = .inf := by
    unfold dominant_volume_ratio
    rw [hother]
    norm_num
  obtain ⟨-, -, -, -, hr, -, -⟩ := evalCombo_spec h
  rw [hr, hratio]
  exact ⟨rfl, rfl, rfl⟩

/-- Witness for C10: a pair whose dearer venue has zero 24h volume emits an
opportunity with an infinite dominant volume ratio. -/
theorem claim_zero_volume_ratio_inf_witness :
    dominant_volume_ratio demoEntryBigVol demoEntryZeroVol = FloatV.inf ∧
    FloatV.ltb (dominant_volume_ratio demoEntryBigVol demoEntryZeroVol) (.fin (6 / 5)) = false ∧
    ((evalCombo demoCfg "AAA/USDC" "base" 1 1 150000 demoEntryBigVol
      demoEntryZeroVol).getD demoOpp).dominant_volume_ratio = FloatV.inf :=
  @claim_zero_volume_ratio_inf demoCfg "AAA/USDC" "base" 1 1 150000
    demoEntryBigVol demoEntryZeroVol
    ((evalCombo demoCfg "AAA/USDC" "base" 1 1 150000 demoEntryBigVol demoEntryZeroVol).getD demoOpp)
    (by decide) (by decide) (by decide)

/-- C7 (amended): when every on-chain fetch succeeds, the target token is in
the pair, both fetched reserves are nonzero, and the counter token matches
neither a known per-chain stablecoin address nor a usable wrapped-native
address (no native USD price for a wrapped-native counter), then
`validate_pair_price` returns `validated = false`, `passed = false`,
`price_usd = none`, `diff_pct = none` and `error = "unsupported_quote_token"`
without raising (the model is total).  The original claim omitted the nonzero
reserve requirement; with a zero reserve the function returns
`empty_reserves` instead (see the counterexample). -/
theorem claim_unsupported_quote_token
    (common_token_addresses : List (String × List (String × String)))
    (max_pct_diff : ℚ) (chain_name : String)
    (pair_address target_token_address counter_token_address : Option String)
    (dex_price_usd : ℚ) (native_price_usd : Option ℚ)
    (decimalsRes : String → Except String ℕ)
    (b : ℕ) (token0 token1 : String) (r0 r1 ts : ℕ) (dt dc : ℕ)
    (hpa : strFalsy pair_address = false)
    (hta : strFalsy target_token_address = false)
    (hside : normalise_address (target_token_address.getD "") = token0 ∨
      normalise_address (target_token_address.getD "") = token1)
    (hr0 : r0 ≠ 0) (hr1 : r1 ≠ 0)
    (hdt : decimalsRes (normalise_address (target_token_address.getD "")) = .ok dt)
    (hdc : decimalsRes (resolved_counter_token token0 token1
      (decide (normalise_address (target_token_address.getD "") = token0))
      counter_token_address) = .ok dc)
    (hunsup : ∀ q : ℚ, counter_to_usd common_token_addresses chain_name
      (resolved_counter_token token0 token1
        (decide (normalise_address (target_token_address.getD "") = token0))
        counter_token_address) q native_price_usd = none) :
    validate_pair_price common_token_addresses max_pct_diff chain_name pair_address
      target_token_address counter_token_address dex_price_usd native_price_usd
      (.ok b) (.ok (some token0, some token1)) (.ok (r0, r1, ts)) decimalsRes
      = ⟨false, false, none, none, some b, some "unsupported_quote_token"⟩ := by
  unfold validate_pair_price
  rw [hpa, hta]
  simp only [Bool.or_self, Bool.false_eq_true, if_false]
  rw [if_pos hside]
  have hq0 : (0 : ℚ) < (r0 : ℚ) := by exact_mod_cast Nat.pos_of_ne_zero hr0
  have hq1 : (0 : ℚ) < (r1 : ℚ) := by exact_mod_cast Nat.pos_of_ne_zero hr1
  cases hT : decide (normalise_address (target_token_address.getD "") = token0) with
  | true =>
    rw [hT] at hdc hunsup
    simp only [if_true, ite_true]
    rw [if_neg (show ¬(r0 = 0 ∨ r1 = 0) by simp [hr0, hr1])]
    simp only [hdt, hdc]
    rw [if_neg (not_le.mpr (by positivity))]
    rw [hunsup]
  | false =>
    rw [hT] at hdc hunsup
    simp only [Bool.false_eq_true, if_false, ite_false]
    rw [if_neg (show ¬(r1 = 0 ∨ r0 = 0) by simp [hr0, hr1])]
    simp only [hdt, hdc]
    rw [if_neg (not_le.mpr (by positivity))]
    rw [hunsup]

/-- Witness for the amended C7: all fetches succeed, the pair holds the
target and an unlisted counter token, and the result is the structured
`unsupported_quote_token` failure. -/
theorem claim_unsupported_quote_token_witness :
    validate_pair_price vTable 5 "base" (some "0xPAIR") (some "0xAAA") none
      1 none (.ok 7) (.ok (some "0xaaa", some "0xbbb")) (.ok (3, 5, 0)) vDecimals
      = ⟨false, false, none, none, some 7, some "unsupported_quote_token"⟩ :=
  claim_unsupported_quote_token vTable 5 "base" (some "0xPAIR") (some "0xAAA") none
    1 none vDecimals 7 "0xaaa" "0xbbb" 3 5 0 18 18
    (by decide) (by decide) (by decide) (by decide) (by decide)
    (by decide) (by decide) (fun q => rfl)

/-- C7 counterexample: with reserves fetched successfully but equal to zero
on the target side, and a counter token absent from the tables, the result
error is `empty_reserves`, not `unsupported_quote_token` — so the claim as
stated (without a nonzero-reserve hypothesis) is false. -/
theorem claim_unsupported_quote_token_counterexample :
    validate_pair_price vTable 5 "base" (some "0xPAIR") (some "0xAAA") none
      1 none (.ok 7) (.ok (some "0xaaa", some "0xbbb")) (.ok (0, 5, 0)) vDecimals
      = ⟨false, false, none, none, some 7, some "empty_reserves"⟩ ∧
    some "empty_reserves" ≠ some "unsupported_quote_token" := by
  constructor
  · decide
  · decide

/-- C9: when the on-chain price derivation succeeds (all fetches succeed, the
target is in the pair, reserves nonzero, counter token priced as `u`) but the
supplied quoted price is not strictly positive, `validate_pair_price` returns
`validated = true`, `passed = false`, `diff_pct = none` and `error = none`;
`price_mismatch` is reserved for a positive quoted price that was compared
and exceeded tolerance. -/
theorem claim_nonpositive_quote_no_mismatch
    (common_token_addresses : List (String × List (String × String)))
    (max_pct_diff : ℚ) (chain_name : String)
    (pair_address target_token_address counter_token_address : Option String)
    (dex_price_usd : ℚ) (native_price_usd : Option ℚ)
    (decimalsRes : String → Except String ℕ)
    (b : ℕ) (token0 token1 : String) (r0 r1 ts : ℕ) (dt dc : ℕ) (u : ℚ)
    (hpa : strFalsy pair_address = false)
    (hta : strFalsy target_token_address = false)
    (hside : normalise_address (target_token_address.getD "") = token0 ∨
      normalise_address (target_token_address.getD "") = token1)
    (hr0 : r0 ≠ 0) (hr1 : r1 ≠ 0)
    (hdt : decimalsRes (normalise_address (target_token_address.getD "")) = .ok dt)
    (hdc : decimalsRes (resolved_counter_token token0 token1
      (decide (normalise_address (target_token_address.getD "") = token0))
      counter_token_address) = .ok dc)
    (husd : counter_to_usd common_token_addresses chain_name
      (resolved_counter_token token0 token1
        (decide (normalise_address (target_token_address.getD "") = token0))
        counter_token_address)
      (((if decide (normalise_address (target_token_address.getD "") = token0) = true
          then (r1 : ℚ) else (r0 : ℚ)) / 10 ^ dc)
        / ((if decide (normalise_address (target_token_address.getD "") = token0) = true
          then (r0 : ℚ) else (r1 : ℚ)) / 10 ^ dt))
      native_price_usd = some u)
    (hdex : dex_price_usd ≤ 0) :
    validate_pair_price common_token_addresses max_pct_diff chain_name pair_address
      target_token_address counter_token_address dex_price_usd native_price_usd
      (.ok b) (.ok (some token0, some token1)) (.ok (r0, r1, ts)) decimalsRes
      = ⟨true, false, some u, none, some b, none⟩ := by
  unfold validate_pair_price
  rw [hpa, hta]
  simp only [Bool.or_self, Bool.false_eq_true, if_false]
  rw [if_pos hside]
  have hq0 : (0 : ℚ) < (r0 : ℚ) := by exact_mod_cast Nat.pos_of_ne_zero hr0
  have hq1 : (0 : ℚ) < (r1 : ℚ) := by exact_mod_cast Nat.pos_of_ne_zero hr1
  cases hT : decide (normalise_address (target_token_address.getD "") = token0) with
  | true =>
    rw [hT] at hdc
    simp only [hT, if_true, ite_true] at husd
    simp only [if_true, ite_true]
    rw [if_neg (show ¬(r0 = 0 ∨ r1 = 0) by simp [hr0, hr1])]
    simp only [hdt, hdc]
    rw [if_neg (not_le.mpr (by positivity))]
    simp only [husd]
    rw [if_neg (not_lt.mpr hdex)]
  | false =>
    rw [hT] at hdc
    simp only [hT, Bool.false_eq_true, if_false, ite_false] at husd
    simp only [Bool.false_eq_true, if_false, ite_false]
    rw [if_neg (show ¬(r1 = 0 ∨ r0 = 0) by simp [hr0, hr1])]
    simp only [hdt, hdc]
    rw [if_neg (not_le.mpr (by positivity))]
    simp only [husd]
    rw [if_neg (not_lt.mpr hdex)]

/-- Witness for C9: the counter token is the chain's USDC, the quoted price
is 0, and the validator reports a validated, unpassed result with no error
and no percentage difference. -/
theorem claim_nonpositive_quote_no_mismatch_witness :
    validate_pair_price vTable 5 "base" (some "0xPAIR") (some "0xAAA") none
      0 none (.ok 7) (.ok (some "0xaaa", some "0xusdc")) (.ok (3, 6, 0)) vDecimals
      = ⟨true, false, some 2, none, some 7, none⟩ :=
  claim_nonpositive_quote_no_mismatch vTable 5 "base" (some "0xPAIR") (some "0xAAA")
    none 0 none vDecimals 7 "0xaaa" "0xusdc" 3 6 0 18 18 2
    (by decide) (by decide) (by decide) (by decide) (by decide)
    (by decide) (by decide) (by decide) (by decide)
